import Mathlib

/-!
# Verification of the MLflow trace-dumper scripts

Shallow embedding of the four near-duplicate Python scripts in this
repository:

* `experiment_trace_dumper.py`           (namespace `ETD`)
* `mlflow_trace_dumper.py` (top level)   (namespace `MTD`)
* `mlflow/mlflow_trace_dumper.py`        (namespace `MV`)
* `mlflow/langraph_trace_dumper.py`      (namespace `LG`)

The remote tracking server is modelled as a pure oracle (`MlflowServer`)
mapping each endpoint call to either a transport-level failure (`none`,
standing for a raised `requests.exceptions.RequestException`) or a
response `(status code, parsed body)`.  All Python functions become pure
Lean functions of the oracle; `datetime.now().isoformat()` becomes an
explicit `now : String` parameter, since it is the only source of
nondeterminism besides the network.
-/

/-- An experiment object as returned by the server.  The scripts read the
`experiment_id` field by direct indexing and the `name` field via
`.get('name', 'Unknown')`; an absent name is represented by the literal
default string. -/
structure Experiment where
  experiment_id : String
  name : String
deriving DecidableEq, Repr

/-- The `info` sub-object of a run.  `run_id` is read by direct indexing,
`run_name` and `experiment_id` via `.get` with defaults. -/
structure RunInfo where
  run_id : String
  run_name : String
  experiment_id : String
deriving DecidableEq, Repr

/-- A run object: the `info` block plus the `data.tags` / `data.params`
mappings (string-to-string, in server order).  An absent `run` key in a
`/runs/get` body corresponds to a record with empty fields. -/
structure RunRec where
  info : RunInfo
  tags : List (String × String)
  params : List (String × String)
deriving DecidableEq, Repr

/-- One entry of an `/artifacts/list` response (`files` array).  The
scripts read `path` via `.get('path', '')`. -/
structure Artifact where
  path : String
  file_size : Nat
deriving DecidableEq, Repr

/-- A JSON object returned by the `/traces/search` endpoint.  The dumper
only ever reads its `trace_id` field (via `.get('trace_id', fallback)`)
and otherwise stores the object verbatim, so the remaining payload is
kept opaque. -/
structure ApiTrace where
  trace_id : Option String
  payload : List (String × String)
deriving DecidableEq, Repr

/-- A metric entry from `/metrics/get-history`; stored verbatim and never
inspected by any script, hence opaque. -/
abbrev Metric := String

/-- Python `str.lower()` restricted to the ASCII range, which is all the
keyword matching ever exercises. -/
def lowerChars (s : String) : List Char :=
  s.data.map Char.toLower

/-- Python's `pat in s` on strings, on the character lists: `pat` occurs
as a contiguous substring of `l`. -/
def charsContain (pat : List Char) : List Char → Bool
  | [] => pat.isEmpty
  | b :: ls => pat.isPrefixOf (b :: ls) || charsContain pat ls

/-- `any(keyword in s.lower() for keyword in kws)`: case-insensitive
substring search of each keyword in `s`. -/
def kwMatch (kws : List String) (s : String) : Bool :=
  kws.any (fun kw => charsContain kw.data (lowerChars s))

/-- Keyword set of the artifact pass in `experiment_trace_dumper.py`. -/
def kwArtifact : List String :=
  ["trace", "langraph", "agent", "execution", "workflow", "flow"]

/-- Keyword set of the metadata pass in `experiment_trace_dumper.py` and
of the artifact filters in both `mlflow_trace_dumper.py` variants. -/
def kwMeta : List String :=
  ["trace", "langraph", "agent"]

/-- The tracking server as a pure oracle.  For each endpoint, `none`
models a raised transport exception and `some (code, body)` a received
response with the parsed body (missing JSON keys already collapsed to
their `.get` defaults). -/
structure MlflowServer where
  expList : Option (Nat × List Experiment)
  expGet : String → Option (Nat × Option Experiment)
  runsSearch : String → Option (Nat × List RunRec)
  runsGet : String → Option (Nat × RunRec)
  tracesSearch : String → Option (Nat × List ApiTrace)
  metricsHistory : String → Option (Nat × List Metric)
  artifactsList : String → Option (Nat × List Artifact)
  artifactsDownload : String → String → Option (Nat × String)

/-- `requests` raises from `raise_for_status()` exactly for status codes
in `[400, 600)`; the scripts never meet codes `≥ 600`. -/
def httpError (code : Nat) : Prop := 400 ≤ code

instance (code : Nat) : Decidable (httpError code) := by
  unfold httpError; infer_instance

/-- `get_all_experiments` (identical in both all-experiments scripts):
`raise_for_status` then `.get('experiments', [])`; any failure is logged
and yields `[]`. -/
def get_all_experiments (s : MlflowServer) : List Experiment :=
  match s.expList with
  | none => []
  | some (code, exps) => if httpError code then [] else exps

/-- `get_runs_for_experiment` (identical in all four scripts): a single
`/runs/search` page; any failure yields `[]`. -/
def get_runs_for_experiment (s : MlflowServer) (eid : String) : List RunRec :=
  match s.runsSearch eid with
  | none => []
  | some (code, runs) => if httpError code then [] else runs

namespace ETD

/-- A trace record assembled by
`ExperimentTraceDumper.get_traces_for_run`.  The constructor is the
dict's `source` tag.  The Python dicts also carry a redundant `content`
string (`json.dumps` of the structured fields for the `api` and
`metadata` variants); that rendering is derived data that nothing ever
reads back, so it is elided.  For the `artifact` variant both `trace_id`
and `artifact_path` equal the artifact path, represented once. -/
inductive TraceRec where
  | api (trace_id : String) (data : ApiTrace)
  | artifact (path : String) (content : String) (size : Nat)
  | metadata (trace_id : String) (trace_tags trace_params : List (String × String))
deriving DecidableEq, Repr

/-- Method 1 of `get_traces_for_run`: each item of a 200 response of
`/traces/search` becomes an `api` record whose id falls back to
`api_trace_<index>` (the accumulator is empty when this pass runs, so
`len(traces)` is the index within the pass). -/
def apiPass (ts : List ApiTrace) : List TraceRec :=
  ts.enum.map (fun p => TraceRec.api (p.2.trace_id.getD ("api_trace_" ++ toString p.1)) p.2)

/-- The guarded download of one keyword-matching artifact: a transport
error is swallowed by the inner `except` and a non-200 download is
silently skipped. -/
def tryDownload (s : MlflowServer) (rid : String) (a : Artifact) : Option TraceRec :=
  match s.artifactsDownload rid a.path with
  | none => none
  | some (code, txt) =>
      if code = 200 then some (TraceRec.artifact a.path txt txt.length) else none

/-- Method 2 of `get_traces_for_run`: download every artifact whose path
contains one of the six keywords (case-insensitively). -/
def artifactPass (s : MlflowServer) (rid : String) (files : List Artifact) : List TraceRec :=
  files.filterMap (fun a => if kwMatch kwArtifact a.path then tryDownload s rid a else none)

/-- Method 3 of `get_traces_for_run`: collect the tags and params whose
KEY contains `trace`, `langraph` or `agent`, and emit one aggregate
`metadata` record when at least one pair matched. -/
def metadataPass (rid : String) (run : RunRec) : List TraceRec :=
  let trace_tags := run.tags.filter (fun kv => kwMatch kwMeta kv.1)
  let trace_params := run.params.filter (fun kv => kwMatch kwMeta kv.1)
  if trace_tags.isEmpty && trace_params.isEmpty then []
  else [TraceRec.metadata ("metadata_trace_" ++ rid) trace_tags trace_params]

/-- `ExperimentTraceDumper.get_traces_for_run`: the three passes append
to one list under a single `try`; a transport error raised by any of the
three top-level endpoint calls abandons the list built so far and
returns `[]` (the artifact downloads have their own inner `except`). -/
def get_traces_for_run (s : MlflowServer) (rid : String) : List TraceRec :=
  match s.tracesSearch rid with
  | none => []
  | some (c1, apiTraces) =>
    let t1 := if c1 = 200 then apiPass apiTraces else []
    match s.artifactsList rid with
    | none => []
    | some (c2, files) =>
      let t2 := if c2 = 200 then t1 ++ artifactPass s rid files else t1
      match s.runsGet rid with
      | none => []
      | some (c3, run) =>
        if c3 = 200 then t2 ++ metadataPass rid run else t2

/-- `ExperimentTraceDumper.get_experiment_info`: `raise_for_status` plus
`.get('experiment', {})`.  Both a `None` return and an empty experiment
object are falsy for the only caller, so the empty object is collapsed
into `none` as well (the body field is already an `Option`). -/
def get_experiment_info (s : MlflowServer) (eid : String) : Option Experiment :=
  match s.expGet eid with
  | none => none
  | some (code, body) => if httpError code then none else body

/-- Return value of `ExperimentTraceDumper.get_run_details`. -/
structure RunDetails where
  run_data : RunRec
  metrics : List Metric
  artifacts : List Artifact
deriving DecidableEq, Repr

/-- `ExperimentTraceDumper.get_run_details`: `/runs/get` with
`raise_for_status`, then best-effort metrics and artifact listing (non-200
leaves them empty, a transport error anywhere aborts to `None`). -/
def get_run_details (s : MlflowServer) (rid : String) : Option RunDetails :=
  match s.runsGet rid with
  | none => none
  | some (code, run) =>
    if httpError code then none
    else
      match s.metricsHistory rid with
      | none => none
      | some (mc, ms) =>
        let metrics := if mc = 200 then ms else []
        match s.artifactsList rid with
        | none => none
        | some (ac, fs) =>
          let artifacts := if ac = 200 then fs else []
          some { run_data := run, metrics := metrics, artifacts := artifacts }

/-- One entry of the dump document's `runs` list. -/
structure RunDump where
  run_info : RunRec
  run_details : Option RunDetails
  traces : List TraceRec
deriving DecidableEq, Repr

/-- The `metadata` block of the single-experiment dump document. -/
structure ETMeta where
  mlflow_url : String
  experiment_id : String
  experiment_name : String
  dump_timestamp : String
  total_runs : Nat
  total_traces : Nat
deriving DecidableEq, Repr

/-- The single-experiment dump document (`experiment_traces` in the
source). -/
structure ETDoc where
  metadata : ETMeta
  experiment_info : Experiment
  runs : List RunDump
deriving DecidableEq, Repr

/-- The body of one iteration of the run loop of
`dump_experiment_traces`. -/
def runDump (s : MlflowServer) (run : RunRec) : RunDump :=
  { run_info := run
    run_details := get_run_details s run.info.run_id
    traces := get_traces_for_run s run.info.run_id }

/-- The run loop of `dump_experiment_traces`: appends each run's record
and adds `len(traces)` to the running `total_traces` counter. -/
def processRuns (s : MlflowServer) (runs : List RunRec) : List RunDump × Nat :=
  runs.foldl
    (fun p run => (p.1 ++ [runDump s run], p.2 + (runDump s run).traces.length))
    ([], 0)

/-- `ExperimentTraceDumper.dump_experiment_traces` (without the optional
file write): a missing experiment short-circuits to the empty dict,
modelled as `none`. -/
def dump_experiment_traces (s : MlflowServer) (url eid now : String) : Option ETDoc :=
  match get_experiment_info s eid with
  | none => none
  | some einfo =>
    let runs := get_runs_for_experiment s eid
    let pr := processRuns s runs
    some
      { metadata :=
          { mlflow_url := url
            experiment_id := eid
            experiment_name := einfo.name
            dump_timestamp := now
            total_runs := runs.length
            total_traces := pr.2 }
        experiment_info := einfo
        runs := pr.1 }

/-- Outcome of the optional file write at the end of
`dump_experiment_traces`. -/
inductive WriteResult where
  | skipped
  | written
  | failed
deriving DecidableEq, Repr

/-- `dump_experiment_traces` including the trailing `if output_file:`
block.  The write is an effect on the file system only; `writeOk` is the
environment's verdict on it, and a failure is caught and logged.  The
function's Python return value is the in-memory document in every
branch. -/
def dump_experiment_traces_to_file (s : MlflowServer) (url eid now : String)
    (output : Option String) (writeOk : Bool) : Option ETDoc × WriteResult :=
  match dump_experiment_traces s url eid now with
  | none => (none, WriteResult.skipped)
  | some doc =>
    match output with
    | none => (some doc, WriteResult.skipped)
    | some _ => (some doc, if writeOk then WriteResult.written else WriteResult.failed)

/-- Erase the only time-dependent field of a dump document. -/
def stripTimestamp (doc : ETDoc) : ETDoc :=
  { doc with metadata := { doc.metadata with dump_timestamp := "" } }

end ETD

namespace MTD

/-- A trace entry produced by `MLflowTraceDumper.get_traces_for_run` in
the top-level script.  The list is heterogeneous in Python: a 200 from
`/traces/search` returns the raw trace objects, while the artifact
fallback builds `{trace_id, content, artifact_path, size}` dicts (with
`trace_id = artifact_path`). -/
inductive MTrace where
  | api (t : ApiTrace)
  | artifact (trace_id : String) (content : String) (artifact_path : String) (size : Nat)
deriving DecidableEq, Repr

/-- The guarded artifact download of the fallback pass (inner `except`
swallows transport errors, non-200 is skipped). -/
def tryDownload (s : MlflowServer) (rid : String) (a : Artifact) : Option MTrace :=
  match s.artifactsDownload rid a.path with
  | none => none
  | some (code, txt) =>
      if code = 200 then some (MTrace.artifact a.path txt a.path txt.length) else none

/-- `MLflowTraceDumper.get_traces_for_run` (top-level script): a 200 from
`/traces/search` RETURNS its items immediately, even when the list is
empty; only a non-200 status falls through to the artifact fallback,
which filters paths on `['trace', 'langraph', 'agent']`.  A transport
error anywhere outside the inner download `try` yields `[]`. -/
def get_traces_for_run (s : MlflowServer) (rid : String) : List MTrace :=
  match s.tracesSearch rid with
  | none => []
  | some (c1, ts) =>
    if c1 = 200 then ts.map MTrace.api
    else
      match s.artifactsList rid with
      | none => []
      | some (c2, files) =>
        if c2 = 200 then
          files.filterMap (fun a => if kwMatch kwMeta a.path then tryDownload s rid a else none)
        else []

/-- Return value of `MLflowTraceDumper.get_trace_data` (top-level
script).  The Python dict gains one dynamic key `artifact_<path>` per
downloaded artifact; those are collected in `artifact_texts` in
download order. -/
structure TraceData where
  run_id : String
  run_data : RunRec
  metrics : List Metric
  parameters : List (String × String)
  tags : List (String × String)
  artifacts : List Artifact
  artifact_texts : List (String × String)
  traces : List MTrace
deriving DecidableEq, Repr

/-- The guarded download of the `get_trace_data` artifact loop. -/
def tryDownloadText (s : MlflowServer) (rid : String) (a : Artifact) : Option (String × String) :=
  match s.artifactsDownload rid a.path with
  | none => none
  | some (code, txt) => if code = 200 then some (a.path, txt) else none

/-- `MLflowTraceDumper.get_trace_data` (top-level script): `/runs/get`
with `raise_for_status`; metrics best effort; a second `/runs/get` call
(the oracle answers it identically) filling params/tags on a 200;
artifact listing plus keyword-filtered downloads; finally the traces of
`get_traces_for_run`.  A transport error outside the inner download
`try` aborts to `None`. -/
def get_trace_data (s : MlflowServer) (rid : String) : Option TraceData :=
  match s.runsGet rid with
  | none => none
  | some (code, run) =>
    if httpError code then none
    else
      match s.metricsHistory rid with
      | none => none
      | some (mc, ms) =>
        let metrics := if mc = 200 then ms else []
        let pt := if code = 200 then (run.params, run.tags) else ([], [])
        match s.artifactsList rid with
        | none => none
        | some (ac, files) =>
          let artifacts := if ac = 200 then files else []
          let artTexts :=
            if ac = 200 then
              files.filterMap
                (fun a => if kwMatch kwMeta a.path then tryDownloadText s rid a else none)
            else []
          some
            { run_id := rid
              run_data := run
              metrics := metrics
              parameters := pt.1
              tags := pt.2
              artifacts := artifacts
              artifact_texts := artTexts
              traces := get_traces_for_run s rid }

/-- A run as it appears in the output document: the search-result record
mutated with a `trace_data` key (`None` when `get_trace_data` failed). -/
structure RunEntry where
  run : RunRec
  trace_data : Option TraceData
deriving DecidableEq, Repr

/-- One iteration of the per-run loops of both dump methods. -/
def runEntry (s : MlflowServer) (run : RunRec) : RunEntry :=
  { run := run, trace_data := get_trace_data s run.info.run_id }

/-- The number of trace records embedded for a run entry:
`len(trace_data.get('traces', []))` when `trace_data` is set, `0` when it
is `None`. -/
def entryTraceCount (e : RunEntry) : Nat :=
  match e.trace_data with
  | some td => td.traces.length
  | none => 0

/-- The per-run loop shared by `dump_experiment_traces` and
`dump_all_traces` of the top-level script: append each run entry, adding
`len(trace_data['traces'])` to the trace counter when `trace_data` is
set. -/
def processRuns (s : MlflowServer) (runs : List RunRec) : List RunEntry × Nat :=
  runs.foldl
    (fun p run => (p.1 ++ [runEntry s run], p.2 + entryTraceCount (runEntry s run)))
    ([], 0)

/-- The `metadata` block of the single-experiment dump of the top-level
script. -/
structure ExpMeta where
  mlflow_url : String
  experiment_id : String
  dump_timestamp : String
  total_runs : Nat
  total_traces : Nat
deriving DecidableEq, Repr

/-- The single-experiment dump document of the top-level script. -/
structure ExpDoc where
  metadata : ExpMeta
  runs : List RunEntry
deriving DecidableEq, Repr

/-- `MLflowTraceDumper.dump_experiment_traces` (top-level script,
without the file write). -/
def dump_experiment_traces (s : MlflowServer) (url eid now : String) : ExpDoc :=
  let runs := get_runs_for_experiment s eid
  let pr := processRuns s runs
  { metadata :=
      { mlflow_url := url
        experiment_id := eid
        dump_timestamp := now
        total_runs := runs.length
        total_traces := pr.2 }
    runs := pr.1 }

/-- One experiment block of the all-experiments dump; the run dicts are
shared with the per-run loop, so they carry the `trace_data` mutation. -/
structure ExpData where
  experiment_info : Experiment
  runs : List RunEntry
deriving DecidableEq, Repr

/-- The `metadata` block of the all-experiments dump. -/
structure AllMeta where
  mlflow_url : String
  dump_timestamp : String
  total_experiments : Nat
  total_runs : Nat
  total_traces : Nat
deriving DecidableEq, Repr

/-- The all-experiments dump document of the top-level script. -/
structure AllDoc where
  metadata : AllMeta
  experiments : List ExpData
deriving DecidableEq, Repr

/-- The runs of one experiment, as fetched in the experiment loop. -/
def expRuns (s : MlflowServer) (e : Experiment) : List RunRec :=
  get_runs_for_experiment s e.experiment_id

/-- One iteration of the experiment loop of `dump_all_traces`. -/
def expData (s : MlflowServer) (e : Experiment) : ExpData :=
  { experiment_info := e, runs := (processRuns s (expRuns s e)).1 }

/-- `MLflowTraceDumper.dump_all_traces` (top-level script, without the
file write): the experiment loop accumulates the experiment blocks and
the run and trace counters. -/
def dump_all_traces (s : MlflowServer) (url now : String) : AllDoc :=
  let exps := get_all_experiments s
  let acc := exps.foldl
    (fun p e =>
      (p.1 ++ [expData s e],
       p.2.1 + (expRuns s e).length,
       p.2.2 + (processRuns s (expRuns s e)).2))
    ([], 0, 0)
  { metadata :=
      { mlflow_url := url
        dump_timestamp := now
        total_experiments := exps.length
        total_runs := acc.2.1
        total_traces := acc.2.2 }
    experiments := acc.1 }

/-- `dump_experiment_traces` including the trailing write block, as in
`ETD.dump_experiment_traces_to_file`: the write is an external effect
whose failure is caught and logged, and the in-memory document is
returned in every branch. -/
def dump_experiment_traces_to_file (s : MlflowServer) (url eid now : String)
    (output : Option String) (writeOk : Bool) : ExpDoc × ETD.WriteResult :=
  let doc := dump_experiment_traces s url eid now
  match output with
  | none => (doc, ETD.WriteResult.skipped)
  | some _ => (doc, if writeOk then ETD.WriteResult.written else ETD.WriteResult.failed)

end MTD

namespace MV

/-- Return value of `MLflowTraceDumper.get_trace_data` in
`mlflow/mlflow_trace_dumper.py`: like the top-level one but with no
`traces` key and no call to a trace classifier. -/
structure TraceData where
  run_id : String
  run_data : RunRec
  metrics : List Metric
  parameters : List (String × String)
  tags : List (String × String)
  artifacts : List Artifact
  artifact_texts : List (String × String)
deriving DecidableEq, Repr

/-- `MV.get_trace_data`: identical control flow to `MTD.get_trace_data`
minus the final trace classification. -/
def get_trace_data (s : MlflowServer) (rid : String) : Option TraceData :=
  match s.runsGet rid with
  | none => none
  | some (code, run) =>
    if httpError code then none
    else
      match s.metricsHistory rid with
      | none => none
      | some (mc, ms) =>
        let metrics := if mc = 200 then ms else []
        let pt := if code = 200 then (run.params, run.tags) else ([], [])
        match s.artifactsList rid with
        | none => none
        | some (ac, files) =>
          let artifacts := if ac = 200 then files else []
          let artTexts :=
            if ac = 200 then
              files.filterMap
                (fun a => if kwMatch kwMeta a.path then MTD.tryDownloadText s rid a else none)
            else []
          some
            { run_id := rid
              run_data := run
              metrics := metrics
              parameters := pt.1
              tags := pt.2
              artifacts := artifacts
              artifact_texts := artTexts }

/-- A run entry of the `mlflow/` variant's document. -/
structure RunEntry where
  run : RunRec
  trace_data : Option TraceData
deriving DecidableEq, Repr

/-- One iteration of the per-run loop of the `mlflow/` variant. -/
def runEntry (s : MlflowServer) (run : RunRec) : RunEntry :=
  { run := run, trace_data := get_trace_data s run.info.run_id }

/-- The trace-counter contribution of one run in the `mlflow/` variant:
`+= 1` whenever `trace_data` is truthy, regardless of how many (if any)
trace records it embeds. -/
def entryCount (e : RunEntry) : Nat :=
  if e.trace_data.isSome then 1 else 0

/-- The per-run loop of the `mlflow/` variant's `dump_all_traces`. -/
def processRuns (s : MlflowServer) (runs : List RunRec) : List RunEntry × Nat :=
  runs.foldl
    (fun p run => (p.1 ++ [runEntry s run], p.2 + entryCount (runEntry s run)))
    ([], 0)

/-- One experiment block of the `mlflow/` variant's document. -/
structure ExpData where
  experiment_info : Experiment
  runs : List RunEntry
deriving DecidableEq, Repr

/-- The all-experiments dump document of the `mlflow/` variant (its
`metadata` block has the same shape as the top-level script's). -/
structure AllDoc where
  metadata : MTD.AllMeta
  experiments : List ExpData
deriving DecidableEq, Repr

/-- The runs of one experiment, as fetched in the experiment loop. -/
def expRuns (s : MlflowServer) (e : Experiment) : List RunRec :=
  get_runs_for_experiment s e.experiment_id

/-- One iteration of the experiment loop of the `mlflow/` variant. -/
def expData (s : MlflowServer) (e : Experiment) : ExpData :=
  { experiment_info := e, runs := (processRuns s (expRuns s e)).1 }

/-- `MLflowTraceDumper.dump_all_traces` of `mlflow/mlflow_trace_dumper.py`
(without the file write): as the top-level one, except that the trace
counter adds `1` per run with truthy `trace_data`. -/
def dump_all_traces (s : MlflowServer) (url now : String) : AllDoc :=
  let exps := get_all_experiments s
  let acc := exps.foldl
    (fun p e =>
      (p.1 ++ [expData s e],
       p.2.1 + (expRuns s e).length,
       p.2.2 + (processRuns s (expRuns s e)).2))
    ([], 0, 0)
  { metadata :=
      { mlflow_url := url
        dump_timestamp := now
        total_experiments := exps.length
        total_runs := acc.2.1
        total_traces := acc.2.2 }
    experiments := acc.1 }

end MV

namespace LG

/-- Keyword set of `LangGraphTraceDumper._is_langraph_trace`. -/
def kws : List String := ["langraph", "agent", "trace"]

/-- Artifact-path patterns of the trace-file loop in
`get_langraph_trace_data`. -/
def filePatterns : List String :=
  ["trace.json", "trace.jsonl", "langraph_trace", "agent_trace",
   "trace_data", "execution_trace", "workflow_trace"]

/-- Keyword set of the tag/param extraction at the end of
`get_langraph_trace_data`. -/
def metaKws : List String := ["langraph", "agent", "trace", "workflow"]

/-- `LangGraphTraceDumper._is_langraph_trace`: tag keys AND tag values
are scanned, then the run name, then the `experiment_id` field of the
run info (the source comment says experiment name, but the code reads
`experiment_id`). -/
def is_langraph_trace (run : RunRec) : Bool :=
  run.tags.any (fun kv => kwMatch kws kv.1 || kwMatch kws kv.2)
  || kwMatch kws run.info.run_name
  || kwMatch kws run.info.experiment_id

/-- One downloaded trace file of the `langraph` variant. -/
structure TraceFile where
  path : String
  content : String
  size : Nat
deriving DecidableEq, Repr

/-- The guarded download of one pattern-matching trace file. -/
def tryDownloadFile (s : MlflowServer) (rid : String) (a : Artifact) : Option TraceFile :=
  match s.artifactsDownload rid a.path with
  | none => none
  | some (code, txt) =>
      if code = 200 then some { path := a.path, content := txt, size := txt.length } else none

/-- The trace-file loop of `get_langraph_trace_data`: download every
artifact whose path matches one of the seven file patterns. -/
def traceFilesPass (s : MlflowServer) (rid : String) (files : List Artifact) : List TraceFile :=
  files.filterMap (fun a => if kwMatch filePatterns a.path then tryDownloadFile s rid a else none)

/-- Return value of `get_langraph_trace_data`.  The `langraph_trace`
mapping stores, per downloaded file, the body parsed as JSON when it
parses and the raw text otherwise; both branches are determined by the
same text, which is kept raw here since nothing inspects the parse. -/
structure TraceData where
  run_id : String
  run_info : RunInfo
  tags : List (String × String)
  params : List (String × String)
  langraph_trace : List (String × String)
  artifacts : List Artifact
  trace_files : List TraceFile
  langraph_info : List (String × String)
deriving DecidableEq, Repr

/-- `LangGraphTraceDumper.get_langraph_trace_data`: `/runs/get` with
`raise_for_status`; runs that do not look LangGraph-related are skipped
(`None`); then artifact listing and the trace-file loop; finally the
`tag_`/`param_`-prefixed keyword matches.  A transport error outside the
inner download `try` aborts to `None`. -/
def get_langraph_trace_data (s : MlflowServer) (rid : String) : Option TraceData :=
  match s.runsGet rid with
  | none => none
  | some (code, run) =>
    if httpError code then none
    else if !is_langraph_trace run then none
    else
      match s.artifactsList rid with
      | none => none
      | some (ac, files) =>
        let artifacts := if ac = 200 then files else []
        let tfiles := if ac = 200 then traceFilesPass s rid files else []
        let linfo :=
          (run.tags.filter (fun kv => kwMatch metaKws kv.1)).map
            (fun kv => ("tag_" ++ kv.1, kv.2))
          ++ (run.params.filter (fun kv => kwMatch metaKws kv.1)).map
            (fun kv => ("param_" ++ kv.1, kv.2))
        some
          { run_id := rid
            run_info := run.info
            tags := run.tags
            params := run.params
            langraph_trace := tfiles.map (fun tf => (tf.path, tf.content))
            artifacts := artifacts
            trace_files := tfiles
            langraph_info := linfo }

/-- One entry of the document's `langraph_traces` list: the trace data
mutated with the surrounding `experiment_info`. -/
structure Entry where
  data : TraceData
  experiment_info : Experiment
deriving DecidableEq, Repr

/-- The entries contributed by one experiment: only runs whose
`get_langraph_trace_data` is truthy are appended. -/
def expEntries (s : MlflowServer) (e : Experiment) : List Entry :=
  (get_runs_for_experiment s e.experiment_id).filterMap
    (fun run => (get_langraph_trace_data s run.info.run_id).map
      (fun td => { data := td, experiment_info := e }))

/-- The `langraph` variant's dump document (`metadata.total_langraph_traces`
plays the role of the trace counter). -/
structure Doc where
  mlflow_url : String
  dump_timestamp : String
  total_experiments : Nat
  total_runs : Nat
  total_langraph_traces : Nat
  langraph_traces : List Entry
deriving DecidableEq, Repr

/-- `LangGraphTraceDumper.dump_langraph_traces` (without the file
write): the counter is incremented by one exactly when an entry is
appended. -/
def dump_langraph_traces (s : MlflowServer) (url now : String) : Doc :=
  let exps := get_all_experiments s
  let acc := exps.foldl
    (fun p e =>
      (p.1 ++ expEntries s e,
       p.2.1 + (get_runs_for_experiment s e.experiment_id).length,
       p.2.2 + (expEntries s e).length))
    ([], 0, 0)
  { mlflow_url := url
    dump_timestamp := now
    total_experiments := exps.length
    total_runs := acc.2.1
    total_langraph_traces := acc.2.2
    langraph_traces := acc.1 }

end LG

/-- Modelled from the spec's words for comparison (§4.3, metadata pass):
"scan tag keys/values and parameter keys for the same keyword set
(case-insensitive substring match)" — tag VALUES included, and the same
six keywords as the artifact pass. -/
def specMetadataMatch (run : RunRec) : Bool :=
  run.tags.any (fun kv => kwMatch kwArtifact kv.1 || kwMatch kwArtifact kv.2)
  || run.params.any (fun kv => kwMatch kwArtifact kv.1)

/-! ## Concrete server states used by witnesses and counterexamples -/

/-- The experiment of the end-to-end scenario. -/
def exp1 : Experiment := { experiment_id := "exp-1", name := "Experiment One" }

/-- A run carrying one keyword-matching artifact in the scenario
servers. -/
def runA : RunRec := { info := { run_id := "run-a", run_name := "first", experiment_id := "exp-1" }, tags := [], params := [] }

/-- A run with no artifacts and no matching metadata. -/
def runB : RunRec := { info := { run_id := "run-b", run_name := "second", experiment_id := "exp-1" }, tags := [], params := [] }

/-- A run whose `/runs/get` fails in the failure-scenario server. -/
def runBad : RunRec := { info := { run_id := "run-bad", run_name := "bad", experiment_id := "exp-1" }, tags := [], params := [] }

/-- The empty run object a `/runs/get` body collapses to when the `run`
key is absent. -/
def emptyRun : RunRec := { info := { run_id := "", run_name := "", experiment_id := "" }, tags := [], params := [] }

/-- The keyword-matching artifact of the scenario servers. -/
def artTrace : Artifact := { path := "run/trace.json", file_size := 4 }

/-- An API trace object with an explicit id. -/
def apiT0 : ApiTrace := { trace_id := some "trace-1", payload := [] }

/-- A server on which every endpoint raises a transport error. -/
def s0 : MlflowServer :=
  { expList := none
    expGet := fun _ => none
    runsSearch := fun _ => none
    runsGet := fun _ => none
    tracesSearch := fun _ => none
    metricsHistory := fun _ => none
    artifactsList := fun _ => none
    artifactsDownload := fun _ _ => none }

/-- Server with one experiment and one run that yields a truthy
`trace_data` but embeds no trace record of any kind (no API traces, no
artifacts, no matching metadata). -/
def cs1 : MlflowServer :=
  { expList := some (200, [exp1])
    expGet := fun _ => some (200, some exp1)
    runsSearch := fun _ => some (200, [runA])
    runsGet := fun _ => some (200, runA)
    tracesSearch := fun _ => some (404, [])
    metricsHistory := fun _ => some (200, [])
    artifactsList := fun _ => some (200, [])
    artifactsDownload := fun _ _ => some (404, "") }

/-- The end-to-end scenario server: one experiment, two runs, exactly one
keyword-matching artifact (on `run-a`) that downloads successfully, a
trace-search endpoint answering 404, and no matching tags or params. -/
def cs2 : MlflowServer :=
  { expList := some (200, [exp1])
    expGet := fun eid => if eid = "exp-1" then some (200, some exp1) else some (404, none)
    runsSearch := fun eid => if eid = "exp-1" then some (200, [runA, runB]) else some (200, [])
    runsGet := fun rid =>
      if rid = "run-a" then some (200, runA)
      else if rid = "run-b" then some (200, runB)
      else some (404, emptyRun)
    tracesSearch := fun _ => some (404, [])
    metricsHistory := fun _ => some (200, [])
    artifactsList := fun rid => if rid = "run-a" then some (200, [artTrace]) else some (200, [])
    artifactsDownload := fun rid p =>
      if rid = "run-a" then
        if p = "run/trace.json" then some (200, "null") else some (404, "")
      else some (404, "") }

/-- Like `cs2` but the trace-search endpoint answers 200 with one trace,
so the top-level classifier returns early. -/
def cs3 : MlflowServer :=
  { cs2 with tracesSearch := fun _ => some (200, [apiT0]) }

/-- Like `cs2` but the matching artifact's body is the non-ASCII
one-character string. -/
def cs5 : MlflowServer :=
  { cs2 with artifactsDownload := fun rid p =>
      if rid = "run-a" then
        if p = "run/trace.json" then some (200, "é") else some (404, "")
      else some (404, "") }

/-- Like `cs2` but the trace-search endpoint answers 200 with an empty
trace list. -/
def cs6 : MlflowServer :=
  { cs2 with tracesSearch := fun _ => some (200, []) }

/-- Failure-scenario server: two runs, `/runs/get` answers 500 for
`run-bad` and succeeds for `run-a`. -/
def cs7 : MlflowServer :=
  { cs2 with
    runsSearch := fun eid => if eid = "exp-1" then some (200, [runA, runBad]) else some (200, [])
    runsGet := fun rid => if rid = "run-a" then some (200, runA) else some (500, emptyRun) }

/-- Server whose `/experiments/get` answers 404 and whose every other
endpoint raises. -/
def csFail : MlflowServer :=
  { s0 with expGet := fun _ => some (404, none) }

/-- The run of the spec's metadata-pass example: one `langraph_version`
tag and nothing else. -/
def langraphRun : RunRec :=
  { info := { run_id := "run-1", run_name := "example", experiment_id := "exp-1" }
    tags := [("langraph_version", "1.0")]
    params := [] }

/-- A run whose only keyword occurrence is inside a tag VALUE. -/
def valueOnlyRun : RunRec :=
  { info := { run_id := "run-v", run_name := "v", experiment_id := "exp-1" }
    tags := [("foo", "trace")]
    params := [] }

/-- `/runs/get` failing for a run, in either of the two ways the scripts
treat as failure: a raised transport error or an HTTP error status. -/
def runsGetFails (s : MlflowServer) (rid : String) : Prop :=
  s.runsGet rid = none ∨ ∃ c b, s.runsGet rid = some (c, b) ∧ httpError c

/-! ## Helper lemmas about the accumulating loops -/

theorem foldl_push {α β : Type _} (f : α → β) (w : α → Nat) :
    ∀ (l : List α) (acc : List β) (n : Nat),
      l.foldl (fun p a => (p.1 ++ [f a], p.2 + w a)) (acc, n)
        = (acc ++ l.map f, n + (l.map w).sum) := by
  intro l
  induction l with
  | nil => intro acc n; simp
  | cons a t ih =>
    intro acc n
    simp only [List.foldl_cons, List.map_cons, List.sum_cons, ih]
    simp [List.append_assoc, Nat.add_assoc]

theorem foldl_push3 {α β : Type _} (f : α → β) (w v : α → Nat) :
    ∀ (l : List α) (acc : List β) (n m : Nat),
      l.foldl (fun p a => (p.1 ++ [f a], p.2.1 + w a, p.2.2 + v a)) (acc, n, m)
        = (acc ++ l.map f, n + (l.map w).sum, m + (l.map v).sum) := by
  intro l
  induction l with
  | nil => intro acc n m; simp
  | cons a t ih =>
    intro acc n m
    simp only [List.foldl_cons, List.map_cons, List.sum_cons, ih]
    simp [List.append_assoc, Nat.add_assoc]

theorem foldl_flat3 {α β : Type _} (g : α → List β) (w v : α → Nat) :
    ∀ (l : List α) (acc : List β) (n m : Nat),
      l.foldl (fun p a => (p.1 ++ g a, p.2.1 + w a, p.2.2 + v a)) (acc, n, m)
        = (acc ++ (l.map g).flatten, n + (l.map w).sum, m + (l.map v).sum) := by
  intro l
  induction l with
  | nil => intro acc n m; simp
  | cons a t ih =>
    intro acc n m
    simp only [List.foldl_cons, List.map_cons, List.flatten_cons, ih]
    simp [List.append_assoc, Nat.add_assoc]

theorem ETD.processRunsETD_eq (s : MlflowServer) (runs : List RunRec) :
    ETD.processRuns s runs
      = (runs.map (ETD.runDump s),
         (runs.map (fun r => (ETD.runDump s r).traces.length)).sum) := by
  simpa using foldl_push (ETD.runDump s) (fun r => (ETD.runDump s r).traces.length) runs [] 0

theorem MTD.processRunsMTD_eq (s : MlflowServer) (runs : List RunRec) :
    MTD.processRuns s runs
      = (runs.map (MTD.runEntry s),
         (runs.map (fun r => MTD.entryTraceCount (MTD.runEntry s r))).sum) := by
  simpa using
    foldl_push (MTD.runEntry s) (fun r => MTD.entryTraceCount (MTD.runEntry s r)) runs [] 0

theorem MV.processRunsMV_eq (s : MlflowServer) (runs : List RunRec) :
    MV.processRuns s runs
      = (runs.map (MV.runEntry s),
         (runs.map (fun r => MV.entryCount (MV.runEntry s r))).sum) := by
  simpa using foldl_push (MV.runEntry s) (fun r => MV.entryCount (MV.runEntry s r)) runs [] 0

theorem MTD.dumpAllMTD_eq (s : MlflowServer) (url now : String) :
    MTD.dump_all_traces s url now
      = { metadata :=
            { mlflow_url := url
              dump_timestamp := now
              total_experiments := (get_all_experiments s).length
              total_runs := ((get_all_experiments s).map (fun e => (MTD.expRuns s e).length)).sum
              total_traces :=
                ((get_all_experiments s).map (fun e => (MTD.processRuns s (MTD.expRuns s e)).2)).sum }
          experiments := (get_all_experiments s).map (MTD.expData s) } := by
  unfold MTD.dump_all_traces
  simp only [foldl_push3 (MTD.expData s) (fun e => (MTD.expRuns s e).length)
      (fun e => (MTD.processRuns s (MTD.expRuns s e)).2)]
  simp

theorem MV.dumpAllMV_eq (s : MlflowServer) (url now : String) :
    MV.dump_all_traces s url now
      = { metadata :=
            { mlflow_url := url
              dump_timestamp := now
              total_experiments := (get_all_experiments s).length
              total_runs := ((get_all_experiments s).map (fun e => (MV.expRuns s e).length)).sum
              total_traces :=
                ((get_all_experiments s).map (fun e => (MV.processRuns s (MV.expRuns s e)).2)).sum }
          experiments := (get_all_experiments s).map (MV.expData s) } := by
  unfold MV.dump_all_traces
  simp only [foldl_push3 (MV.expData s) (fun e => (MV.expRuns s e).length)
      (fun e => (MV.processRuns s (MV.expRuns s e)).2)]
  simp

theorem LG.dumpLG_eq (s : MlflowServer) (url now : String) :
    LG.dump_langraph_traces s url now
      = { mlflow_url := url
          dump_timestamp := now
          total_experiments := (get_all_experiments s).length
          total_runs :=
            ((get_all_experiments s).map
              (fun e => (get_runs_for_experiment s e.experiment_id).length)).sum
          total_langraph_traces :=
            ((get_all_experiments s).map (fun e => (LG.expEntries s e).length)).sum
          langraph_traces := ((get_all_experiments s).map (LG.expEntries s)).flatten } := by
  unfold LG.dump_langraph_traces
  simp only [foldl_flat3 (LG.expEntries s)
      (fun e => (get_runs_for_experiment s e.experiment_id).length)
      (fun e => (LG.expEntries s e).length)]
  simp

theorem sum_map_ite_one {α : Type _} (p : α → Bool) :
    ∀ l : List α, (l.map (fun x => if p x then 1 else 0)).sum = (l.filter p).length := by
  intro l
  induction l with
  | nil => simp
  | cons a t ih =>
    by_cases hp : p a = true <;> simp [List.filter_cons, hp, ih, Nat.add_comm]

theorem filterMap_guard_nil {α β : Type _} (p : α → Bool) (dl : α → Option β) :
    ∀ l : List α, l.filter p = [] →
      l.filterMap (fun x => if p x then dl x else none) = [] := by
  intro l
  induction l with
  | nil => simp
  | cons x t ih =>
    intro h
    by_cases hp : p x = true
    · simp [List.filter_cons, hp] at h
    · simp only [List.filterMap_cons, if_neg hp]
      exact ih (by simpa [List.filter_cons, hp] using h)

theorem filterMap_guard_single {α β : Type _} (p : α → Bool) (dl : α → Option β)
    (a : α) (r : β) (hd : dl a = some r) :
    ∀ l : List α, l.filter p = [a] →
      l.filterMap (fun x => if p x then dl x else none) = [r] := by
  intro l
  induction l with
  | nil => intro h; simp at h
  | cons x t ih =>
    intro h
    by_cases hp : p x = true
    · rw [List.filter_cons_of_pos hp] at h
      obtain ⟨rfl, ht⟩ := List.cons_eq_cons.mp h
      simp only [List.filterMap_cons, if_pos hp, hd, filterMap_guard_nil p dl t ht]
    · rw [List.filter_cons] at h
      simp only [hp] at h
      simp only [List.filterMap_cons, if_neg hp]
      exact ih h

/-! ## Claim theorems -/

/-- C8: For any two executions of the single-experiment dump that receive
identical responses from the server for every request, the returned
documents are identical except for the `dump_timestamp` metadata field.
(The embedding makes the server a pure oracle, so "identical responses"
is "same oracle"; the timestamp is the only other input.) -/
theorem C8_deterministic_up_to_timestamp :
    ∀ (s : MlflowServer) (url eid t1 t2 : String),
      (ETD.dump_experiment_traces s url eid t1).map ETD.stripTimestamp
        = (ETD.dump_experiment_traces s url eid t2).map ETD.stripTimestamp := by
  intro s url eid t1 t2
  unfold ETD.dump_experiment_traces
  cases ETD.get_experiment_info s eid <;> simp [ETD.stripTimestamp]

/-- C9: A failing output-file write is caught and the in-memory document
returned to the caller is exactly the one a successful (or skipped) write
returns: the first component of the result does not depend on the write
outcome and equals the pure dump, in both scripts that follow this
pattern. -/
theorem C9_write_failure_isolated :
    ∀ (s : MlflowServer) (url eid now : String) (out : Option String) (w1 w2 : Bool),
      (ETD.dump_experiment_traces_to_file s url eid now out w1).1
        = (ETD.dump_experiment_traces_to_file s url eid now out w2).1
      ∧ (ETD.dump_experiment_traces_to_file s url eid now out w1).1
        = ETD.dump_experiment_traces s url eid now
      ∧ (MTD.dump_experiment_traces_to_file s url eid now out w1).1
        = MTD.dump_experiment_traces s url eid now := by
  intro s url eid now out w1 w2
  refine ⟨?_, ?_, ?_⟩
  · unfold ETD.dump_experiment_traces_to_file
    cases ETD.dump_experiment_traces s url eid now <;> cases out <;> simp
  · unfold ETD.dump_experiment_traces_to_file
    cases ETD.dump_experiment_traces s url eid now <;> cases out <;> simp
  · unfold MTD.dump_experiment_traces_to_file
    cases out <;> simp

/-- C10: If the initial experiment-info fetch fails or finds no
experiment, `dump_experiment_traces` of the single-experiment script
returns the empty dictionary (`none` here); the second conjunct
characterises exactly when that happens (transport error, HTTP error
status, or empty/absent experiment object), and the third shows the
result then depends on no endpoint other than `/experiments/get` — no
run or trace fetch influences it. -/
theorem C10_missing_experiment :
    (∀ (s : MlflowServer) (url eid now : String),
        ETD.get_experiment_info s eid = none →
        ETD.dump_experiment_traces s url eid now = none)
  ∧ (∀ (s : MlflowServer) (eid : String),
        ETD.get_experiment_info s eid = none
          ↔ (s.expGet eid = none
             ∨ ∃ c b, s.expGet eid = some (c, b) ∧ (httpError c ∨ b = none)))
  ∧ (∀ (s s2 : MlflowServer) (url eid now : String),
        s2.expGet = s.expGet →
        ETD.get_experiment_info s eid = none →
        ETD.dump_experiment_traces s2 url eid now = none) := by
  refine ⟨?_, ?_, ?_⟩
  · intro s url eid now h
    unfold ETD.dump_experiment_traces
    rw [h]
  · intro s eid
    unfold ETD.get_experiment_info
    cases hx : s.expGet eid with
    | none => simp
    | some cb =>
      obtain ⟨c, b⟩ := cb
      by_cases hc : httpError c
      · simp only [if_pos hc, true_iff]
        exact Or.inr ⟨c, b, rfl, Or.inl hc⟩
      · cases b with
        | none =>
          simp only [if_neg hc, true_iff]
          exact Or.inr ⟨c, none, rfl, Or.inr rfl⟩
        | some x => simp [hc]
  · intro s s2 url eid now hag h
    unfold ETD.dump_experiment_traces
    have h2 : ETD.get_experiment_info s2 eid = none := by
      unfold ETD.get_experiment_info at h ⊢
      rw [hag]
      exact h
    rw [h2]

/-- Witness for C10 at a concrete server whose `/experiments/get` answers
404. -/
theorem C10_missing_experiment_w :
    ETD.dump_experiment_traces csFail "u" "exp-1" "t" = none :=
  C10_missing_experiment.1 csFail "u" "exp-1" "t" rfl

theorem any_false_iff_filter_nil {α : Type _} (p : α → Bool) (l : List α) :
    l.any p = false ↔ l.filter p = [] := by
  simp [List.any_eq_false, List.filter_eq_nil_iff]

/-- C4 (amended): the metadata pass scans only tag KEYS and parameter
KEYS, case-insensitively, against `{trace, langraph, agent}`; it emits
exactly one `metadata` record when at least one key matches and zero
otherwise; any emitted record aggregates exactly the matching tag and
param pairs; and the spec's `langraph_version` example yields exactly one
record carrying that tag and no params. -/
theorem C4_metadata_pass :
    (∀ (rid : String) (run : RunRec),
        (ETD.metadataPass rid run).length
          = (if run.tags.any (fun kv => kwMatch kwMeta kv.1)
                || run.params.any (fun kv => kwMatch kwMeta kv.1)
             then 1 else 0))
  ∧ (∀ (rid : String) (run : RunRec) (rec : ETD.TraceRec),
        rec ∈ ETD.metadataPass rid run →
        rec = ETD.TraceRec.metadata ("metadata_trace_" ++ rid)
                (run.tags.filter (fun kv => kwMatch kwMeta kv.1))
                (run.params.filter (fun kv => kwMatch kwMeta kv.1)))
  ∧ ETD.metadataPass "run-1" langraphRun
      = [ETD.TraceRec.metadata "metadata_trace_run-1" [("langraph_version", "1.0")] []] := by
  refine ⟨?_, ?_, by decide⟩
  · intro rid run
    unfold ETD.metadataPass
    by_cases h1 : run.tags.any (fun kv => kwMatch kwMeta kv.1) = true
    · have : ¬ run.tags.filter (fun kv => kwMatch kwMeta kv.1) = [] := by
        intro hnil
        rw [← any_false_iff_filter_nil] at hnil
        rw [h1] at hnil
        cases hnil
      simp [h1, List.isEmpty_iff, this]
    · have hf1 : run.tags.filter (fun kv => kwMatch kwMeta kv.1) = [] :=
        (any_false_iff_filter_nil _ _).mp (by simpa using h1)
      by_cases h2 : run.params.any (fun kv => kwMatch kwMeta kv.1) = true
      · have : ¬ run.params.filter (fun kv => kwMatch kwMeta kv.1) = [] := by
          intro hnil
          rw [← any_false_iff_filter_nil] at hnil
          rw [h2] at hnil
          cases hnil
        simp [h1, h2, hf1, List.isEmpty_iff, this]
      · have hf2 : run.params.filter (fun kv => kwMatch kwMeta kv.1) = [] :=
          (any_false_iff_filter_nil _ _).mp (by simpa using h2)
        simp [h1, h2, hf1, hf2, List.isEmpty_iff]
  · intro rid run rec hmem
    unfold ETD.metadataPass at hmem
    by_cases hemp : (run.tags.filter (fun kv => kwMatch kwMeta kv.1)).isEmpty
                      && (run.params.filter (fun kv => kwMatch kwMeta kv.1)).isEmpty
    · rw [if_pos hemp] at hmem
      cases hmem
    · rw [if_neg hemp] at hmem
      simpa using hmem

/-- Witness for C4: the unique record emitted for the `langraph_version`
run is the aggregate of its matching pairs. -/
theorem C4_metadata_pass_w :
    ETD.TraceRec.metadata "metadata_trace_run-1" [("langraph_version", "1.0")] []
      = ETD.TraceRec.metadata ("metadata_trace_" ++ "run-1")
          (langraphRun.tags.filter (fun kv => kwMatch kwMeta kv.1))
          (langraphRun.params.filter (fun kv => kwMatch kwMeta kv.1)) :=
  C4_metadata_pass.2.1 "run-1" langraphRun _ (by decide)

/-- Counterexample for C4 as stated: a run whose only keyword occurrence
is inside a tag VALUE.  Under the claimed scan (tag keys, tag values and
parameter keys against the spec's keyword set) a match exists —
`specMetadataMatch` is the claim's scan, modelled from the spec's words —
so the claim demands exactly one metadata record; the code emits none,
because it scans only keys. -/
theorem C4_value_not_scanned :
    specMetadataMatch valueOnlyRun = true
    ∧ ETD.metadataPass "run-v" valueOnlyRun = [] := by
  exact ⟨by decide, by decide⟩

/-- C5 (amended): for a run whose artifact list contains exactly one
keyword-matching path that downloads successfully, the artifact pass of
`experiment_trace_dumper.py` — and likewise the trace-file loop of the
`langraph` variant — produces exactly one artifact record keyed by that
path, whose recorded `size` equals the number of characters
(`len(text)` in Python) of the downloaded text. -/
theorem C5_single_artifact_record :
    (∀ (s : MlflowServer) (rid : String) (files : List Artifact) (a : Artifact) (txt : String),
        files.filter (fun f => kwMatch kwArtifact f.path) = [a] →
        s.artifactsDownload rid a.path = some (200, txt) →
        ETD.artifactPass s rid files = [ETD.TraceRec.artifact a.path txt txt.length])
  ∧ (∀ (s : MlflowServer) (rid : String) (files : List Artifact) (a : Artifact) (txt : String),
        files.filter (fun f => kwMatch LG.filePatterns f.path) = [a] →
        s.artifactsDownload rid a.path = some (200, txt) →
        LG.traceFilesPass s rid files
          = [{ path := a.path, content := txt, size := txt.length }]) := by
  constructor
  · intro s rid files a txt hone hd
    unfold ETD.artifactPass
    exact filterMap_guard_single _ _ a _ (by simp [ETD.tryDownload, hd]) files hone
  · intro s rid files a txt hone hd
    unfold LG.traceFilesPass
    exact filterMap_guard_single _ _ a _ (by simp [LG.tryDownloadFile, hd]) files hone

/-- Witness for C5 at the scenario server: the single matching artifact
yields the single record with `size = len("null") = 4`. -/
theorem C5_single_artifact_record_w :
    ETD.artifactPass cs2 "run-a" [artTrace]
      = [ETD.TraceRec.artifact artTrace.path "null" ("null" : String).length] :=
  C5_single_artifact_record.1 cs2 "run-a" [artTrace] artTrace "null" (by decide) (by decide)

/-- Counterexample for C5 as stated: the recorded size is the character
count of the downloaded text, not its byte length.  For the one-character
body of `cs5` the code records `size = 1` while the text occupies 2
bytes. -/
theorem C5_size_is_chars_not_bytes :
    ETD.artifactPass cs5 "run-a" [artTrace] = [ETD.TraceRec.artifact "run/trace.json" "é" 1]
    ∧ ("é" : String).utf8ByteSize = 2 := by
  exact ⟨by decide, by decide⟩

/-- C3 (amended): in `experiment_trace_dumper.py`, whenever none of the
three top-level endpoint calls raises a transport error, the classifier
returns the ordered, non-deduplicated concatenation of the three passes,
each computed from its own response only (a non-200 status makes that
pass contribute nothing, without affecting the others).  In the
top-level `mlflow_trace_dumper.py`, by contrast, there are only two
passes and an HTTP 200 from the trace-search endpoint returns its items
immediately, skipping the artifact pass. -/
theorem C3_three_pass_concatenation :
    (∀ (s : MlflowServer) (rid : String) (c1 : Nat) (ts : List ApiTrace)
        (c2 : Nat) (files : List Artifact) (c3 : Nat) (run : RunRec),
        s.tracesSearch rid = some (c1, ts) →
        s.artifactsList rid = some (c2, files) →
        s.runsGet rid = some (c3, run) →
        ETD.get_traces_for_run s rid
          = (if c1 = 200 then ETD.apiPass ts else [])
            ++ (if c2 = 200 then ETD.artifactPass s rid files else [])
            ++ (if c3 = 200 then ETD.metadataPass rid run else []))
  ∧ (∀ (s : MlflowServer) (rid : String) (ts : List ApiTrace),
        s.tracesSearch rid = some (200, ts) →
        MTD.get_traces_for_run s rid = ts.map MTD.MTrace.api) := by
  constructor
  · intro s rid c1 ts c2 files c3 run h1 h2 h3
    unfold ETD.get_traces_for_run
    rw [h1, h2, h3]
    by_cases hc2 : c2 = 200 <;> by_cases hc3 : c3 = 200 <;>
      simp [hc2, hc3, List.append_assoc]
  · intro s rid ts h
    unfold MTD.get_traces_for_run
    rw [h]
    simp

/-- Witness for C3 at the scenario server: trace search answered 404,
artifact listing and run detail answered 200, so the result is the
concatenation with an empty API part. -/
theorem C3_three_pass_concatenation_w :
    ETD.get_traces_for_run cs2 "run-a"
      = (if (404 : Nat) = 200 then ETD.apiPass [] else [])
        ++ (if (200 : Nat) = 200 then ETD.artifactPass cs2 "run-a" [artTrace] else [])
        ++ (if (200 : Nat) = 200 then ETD.metadataPass "run-a" runA else []) :=
  C3_three_pass_concatenation.1 cs2 "run-a" 404 [] 200 [artTrace] 200 runA rfl rfl rfl

/-- Counterexample for C3 as stated: on `cs3` the trace-search endpoint
answers 200 with one trace and the run has a keyword-matching artifact
that downloads successfully, yet the top-level classifier returns only
the API items — the artifact pass never ran and there is no metadata
pass, so the result is not the concatenation of three passes. -/
theorem C3_api_pass_short_circuits :
    MTD.get_traces_for_run cs3 "run-a" = [MTD.MTrace.api apiT0]
    ∧ kwMatch kwMeta artTrace.path = true
    ∧ cs3.artifactsList "run-a" = some (200, [artTrace])
    ∧ cs3.artifactsDownload "run-a" artTrace.path = some (200, "null") := by
  exact ⟨by decide, by decide, by decide, by decide⟩

/-- C6: a run with zero API traces (a 200 response with an empty list),
no keyword-matching artifact and no matching tag or param keys yields
zero trace records, and the run still appears in the dump document's run
list, with an empty trace list. -/
theorem C6_zero_traces_run_still_listed :
    ∀ (s : MlflowServer) (url eid now : String) (einfo : Experiment)
      (r : RunRec) (files : List Artifact) (rd : RunRec),
      ETD.get_experiment_info s eid = some einfo →
      r ∈ get_runs_for_experiment s eid →
      s.tracesSearch r.info.run_id = some (200, []) →
      s.artifactsList r.info.run_id = some (200, files) →
      (∀ a ∈ files, kwMatch kwArtifact a.path = false) →
      s.runsGet r.info.run_id = some (200, rd) →
      (∀ kv ∈ rd.tags, kwMatch kwMeta kv.1 = false) →
      (∀ kv ∈ rd.params, kwMatch kwMeta kv.1 = false) →
      ETD.get_traces_for_run s r.info.run_id = []
      ∧ ∃ doc, ETD.dump_experiment_traces s url eid now = some doc
          ∧ ETD.runDump s r ∈ doc.runs
          ∧ (ETD.runDump s r).run_info = r
          ∧ (ETD.runDump s r).traces = [] := by
  intro s url eid now einfo r files rd he hmem hts hal hnf hrg hnt hnp
  have hart : ETD.artifactPass s r.info.run_id files = [] := by
    unfold ETD.artifactPass
    exact filterMap_guard_nil _ _ files
      (List.filter_eq_nil_iff.mpr (by intro a ha; simp [hnf a ha]))
  have hmeta : ETD.metadataPass r.info.run_id rd = [] := by
    unfold ETD.metadataPass
    have h1 : rd.tags.filter (fun kv => kwMatch kwMeta kv.1) = [] :=
      List.filter_eq_nil_iff.mpr (by intro kv hkv; simp [hnt kv hkv])
    have h2 : rd.params.filter (fun kv => kwMatch kwMeta kv.1) = [] :=
      List.filter_eq_nil_iff.mpr (by intro kv hkv; simp [hnp kv hkv])
    simp [h1, h2]
  have htr : ETD.get_traces_for_run s r.info.run_id = [] := by
    unfold ETD.get_traces_for_run
    rw [hts, hal, hrg]
    simp [ETD.apiPass, hart, hmeta]
  refine ⟨htr, ?_⟩
  unfold ETD.dump_experiment_traces
  rw [he]
  refine ⟨_, rfl, ?_, rfl, by simp [ETD.runDump, htr]⟩
  show ETD.runDump s r ∈ (ETD.processRuns s (get_runs_for_experiment s eid)).1
  rw [ETD.processRunsETD_eq]
  exact List.mem_map_of_mem _ hmem

/-- Witness for C6 at `cs6` with its second, matchless run. -/
theorem C6_zero_traces_run_still_listed_w :
    ETD.get_traces_for_run cs6 "run-b" = []
    ∧ ∃ doc, ETD.dump_experiment_traces cs6 "u" "exp-1" "t" = some doc
        ∧ ETD.runDump cs6 runB ∈ doc.runs
        ∧ (ETD.runDump cs6 runB).run_info = runB
        ∧ (ETD.runDump cs6 runB).traces = [] :=
  C6_zero_traces_run_still_listed cs6 "u" "exp-1" "t" exp1 runB [] runB
    rfl (by decide) rfl rfl (by simp) rfl (by simp [runB]) (by simp [runB])

/-- C7: when `/runs/get` fails for one run — transport error or HTTP
error status — `get_trace_data` of the top-level script returns `None`,
so that run's entry carries `trace_data = None` (an empty trace list),
while the run itself (the search-results record) still appears in the
document's run list; the first conjunct shows every run's entry is
computed from its own responses in search order, so the other runs are
unaffected. -/
theorem C7_failed_run_detail_isolated :
    ∀ (s : MlflowServer) (url eid now : String) (rbad : RunRec),
      rbad ∈ get_runs_for_experiment s eid →
      runsGetFails s rbad.info.run_id →
      (MTD.dump_experiment_traces s url eid now).runs
          = (get_runs_for_experiment s eid).map (MTD.runEntry s)
      ∧ MTD.runEntry s rbad ∈ (MTD.dump_experiment_traces s url eid now).runs
      ∧ (MTD.runEntry s rbad).run = rbad
      ∧ (MTD.runEntry s rbad).trace_data = none := by
  intro s url eid now rbad hmem hfail
  have hnone : MTD.get_trace_data s rbad.info.run_id = none := by
    unfold MTD.get_trace_data
    rcases hfail with h | ⟨c, b, h, hc⟩
    · rw [h]
    · rw [h]
      simp [hc]
  have hruns : (MTD.dump_experiment_traces s url eid now).runs
      = (get_runs_for_experiment s eid).map (MTD.runEntry s) := by
    unfold MTD.dump_experiment_traces
    simp [MTD.processRunsMTD_eq]
  refine ⟨hruns, ?_, rfl, ?_⟩
  · rw [hruns]
    exact List.mem_map_of_mem _ hmem
  · simp [MTD.runEntry, hnone]

/-- Witness for C7 at `cs7`, where `/runs/get` answers 500 for
`run-bad`. -/
theorem C7_failed_run_detail_isolated_w :
    (MTD.dump_experiment_traces cs7 "u" "exp-1" "t").runs
        = (get_runs_for_experiment cs7 "exp-1").map (MTD.runEntry cs7)
    ∧ MTD.runEntry cs7 runBad ∈ (MTD.dump_experiment_traces cs7 "u" "exp-1" "t").runs
    ∧ (MTD.runEntry cs7 runBad).run = runBad
    ∧ (MTD.runEntry cs7 runBad).trace_data = none :=
  C7_failed_run_detail_isolated cs7 "u" "exp-1" "t" runBad (by decide)
    (Or.inr ⟨500, emptyRun, rfl, by decide⟩)

theorem MV.processRunsMV_count (s : MlflowServer) (runs : List RunRec) :
    (MV.processRuns s runs).2
      = ((MV.processRuns s runs).1.filter (fun e => e.trace_data.isSome)).length := by
  rw [MV.processRunsMV_eq]
  show (runs.map (fun r => MV.entryCount (MV.runEntry s r))).sum = _
  rw [List.filter_map, List.length_map]
  exact sum_map_ite_one (fun r => (MV.runEntry s r).trace_data.isSome) runs

/-- C1 (amended): in `experiment_trace_dumper.dump_experiment_traces`
and in both dump methods of the top-level `mlflow_trace_dumper.py`, the
metadata counter `total_traces` equals the sum over the document's runs
of the number of trace records embedded for that run (zero for a run
with `trace_data = None`).  In the `mlflow/` variant's
`dump_all_traces`, `total_traces` instead counts the runs whose
`trace_data` is set — i.e. whose run-detail fetch chain succeeded — and
in the `langraph` variant `total_langraph_traces` counts the appended
per-run entries, not the trace files embedded inside them. -/
theorem C1_metadata_counters :
    (∀ (s : MlflowServer) (url eid now : String) (doc : ETD.ETDoc),
        ETD.dump_experiment_traces s url eid now = some doc →
        doc.metadata.total_traces = (doc.runs.map (fun rd => rd.traces.length)).sum)
  ∧ (∀ (s : MlflowServer) (url eid now : String),
        (MTD.dump_experiment_traces s url eid now).metadata.total_traces
          = ((MTD.dump_experiment_traces s url eid now).runs.map MTD.entryTraceCount).sum)
  ∧ (∀ (s : MlflowServer) (url now : String),
        (MTD.dump_all_traces s url now).metadata.total_traces
          = ((MTD.dump_all_traces s url now).experiments.map
              (fun ed => (ed.runs.map MTD.entryTraceCount).sum)).sum)
  ∧ (∀ (s : MlflowServer) (url now : String),
        (MV.dump_all_traces s url now).metadata.total_traces
          = ((MV.dump_all_traces s url now).experiments.map
              (fun ed => (ed.runs.filter (fun e => e.trace_data.isSome)).length)).sum)
  ∧ (∀ (s : MlflowServer) (url now : String),
        (LG.dump_langraph_traces s url now).total_langraph_traces
          = (LG.dump_langraph_traces s url now).langraph_traces.length) := by
  refine ⟨?_, ?_, ?_, ?_, ?_⟩
  · intro s url eid now doc h
    unfold ETD.dump_experiment_traces at h
    cases he : ETD.get_experiment_info s eid with
    | none => rw [he] at h; cases h
    | some einfo =>
      rw [he] at h
      obtain rfl : _ = doc := Option.some.inj h
      show (ETD.processRuns s (get_runs_for_experiment s eid)).2 = _
      rw [ETD.processRunsETD_eq]
      simp [List.map_map, Function.comp_def]
  · intro s url eid now
    simp only [MTD.dump_experiment_traces]
    rw [MTD.processRunsMTD_eq]
    simp [List.map_map, Function.comp_def]
  · intro s url now
    simp only [MTD.dumpAllMTD_eq]
    rw [List.map_map]
    congr 1
    apply List.map_congr_left
    intro e _
    simp only [Function.comp_def, MTD.expData]
    rw [MTD.processRunsMTD_eq]
    simp [List.map_map, Function.comp_def]
  · intro s url now
    simp only [MV.dumpAllMV_eq]
    rw [List.map_map]
    congr 1
    apply List.map_congr_left
    intro e _
    simp only [Function.comp_def, MV.expData]
    exact MV.processRunsMV_count s (MV.expRuns s e)
  · intro s url now
    simp only [LG.dumpLG_eq]
    simp [List.length_flatten, List.map_map, Function.comp_def]

/-- Witness for C1 at the scenario server: the dump succeeds and its
counter equals the embedded-record sum. -/
theorem C1_metadata_counters_w :
    ∃ doc, ETD.dump_experiment_traces cs2 "u" "exp-1" "t" = some doc
      ∧ doc.metadata.total_traces = (doc.runs.map (fun rd => rd.traces.length)).sum := by
  refine ⟨_, rfl, ?_⟩
  exact C1_metadata_counters.1 cs2 "u" "exp-1" "t" _ rfl

/-- Counterexample for C1 as stated: on `cs1` the `mlflow/` variant's
dump reports `total_traces = 1` although the document embeds no trace
record of any kind for its single run — the `trace_data` blob has no
trace list and no downloaded artifact text.  The counter counts runs
with a successful run-detail fetch, not embedded trace records. -/
theorem C1_mv_counter_counts_runs :
    MV.dump_all_traces cs1 "u" "t"
      = { metadata := { mlflow_url := "u", dump_timestamp := "t",
                        total_experiments := 1, total_runs := 1, total_traces := 1 },
          experiments := [{ experiment_info := exp1,
                            runs := [{ run := runA,
                                       trace_data := some
                                         { run_id := "run-a", run_data := runA,
                                           metrics := [], parameters := [], tags := [],
                                           artifacts := [], artifact_texts := [] } }] }] } := by
  decide

theorem MTD.traceDataMTD_success (s : MlflowServer) (rid : String) (rd : RunRec)
    (m : Nat) (ms : List Metric) (ac : Nat) (files : List Artifact)
    (hg : s.runsGet rid = some (200, rd))
    (hm : s.metricsHistory rid = some (m, ms))
    (ha : s.artifactsList rid = some (ac, files)) :
    ∃ td, MTD.get_trace_data s rid = some td
      ∧ td.traces = MTD.get_traces_for_run s rid := by
  simp only [MTD.get_trace_data, hg]
  rw [if_neg (by decide : ¬ httpError 200)]
  simp only [hm, ha]
  exact ⟨_, rfl, rfl⟩

theorem MV.traceDataMV_success (s : MlflowServer) (rid : String) (rd : RunRec)
    (m : Nat) (ms : List Metric) (ac : Nat) (files : List Artifact)
    (hg : s.runsGet rid = some (200, rd))
    (hm : s.metricsHistory rid = some (m, ms))
    (ha : s.artifactsList rid = some (ac, files)) :
    ∃ td, MV.get_trace_data s rid = some td := by
  simp only [MV.get_trace_data, hg]
  rw [if_neg (by decide : ¬ httpError 200)]
  simp only [hm, ha]
  exact ⟨_, rfl⟩

theorem MTD.traces_single_artifact (s : MlflowServer) (rid : String) (c : Nat)
    (ts : List ApiTrace) (a : Artifact) (txt : String)
    (ht : s.tracesSearch rid = some (c, ts)) (hc : c ≠ 200)
    (ha : s.artifactsList rid = some (200, [a]))
    (hk : kwMatch kwMeta a.path = true)
    (hd : s.artifactsDownload rid a.path = some (200, txt)) :
    MTD.get_traces_for_run s rid = [MTD.MTrace.artifact a.path txt a.path txt.length] := by
  simp only [MTD.get_traces_for_run, ht]
  rw [if_neg hc]
  simp [ha, MTD.tryDownload, hk, hd]

theorem MTD.traces_no_artifacts (s : MlflowServer) (rid : String) (c : Nat)
    (ts : List ApiTrace)
    (ht : s.tracesSearch rid = some (c, ts)) (hc : c ≠ 200)
    (ha : s.artifactsList rid = some (200, [])) :
    MTD.get_traces_for_run s rid = [] := by
  simp only [MTD.get_traces_for_run, ht]
  rw [if_neg hc]
  simp [ha]

/-- C2 (amended): for a server state with exactly 1 experiment and 2
runs where exactly one run has a single keyword-matching artifact that
downloads successfully and nothing else matches, the TOP-LEVEL script's
`dump_all_traces` reports `total_experiments = 1`, `total_runs = 2`,
`total_traces = 1` — provided the trace-search endpoint answers a
non-200 status, since a 200 (even with an empty list) would bypass the
artifact fallback.  On the same server state the `mlflow/` variant's
`dump_all_traces` reports `total_traces = 2`, because its counter counts
runs with a successful run-detail fetch. -/
theorem C2_end_to_end_scenario :
    ∀ (s : MlflowServer) (url now : String) (e : Experiment) (r1 r2 : RunRec)
      (a : Artifact) (txt : String) (c1 c2 : Nat) (ts1 ts2 : List ApiTrace)
      (rd1 rd2 : RunRec) (m1 m2 : Nat) (ms1 ms2 : List Metric),
      s.expList = some (200, [e]) →
      s.runsSearch e.experiment_id = some (200, [r1, r2]) →
      s.tracesSearch r1.info.run_id = some (c1, ts1) → c1 ≠ 200 →
      s.artifactsList r1.info.run_id = some (200, [a]) →
      kwMatch kwMeta a.path = true →
      s.artifactsDownload r1.info.run_id a.path = some (200, txt) →
      s.runsGet r1.info.run_id = some (200, rd1) →
      s.metricsHistory r1.info.run_id = some (m1, ms1) →
      s.tracesSearch r2.info.run_id = some (c2, ts2) → c2 ≠ 200 →
      s.artifactsList r2.info.run_id = some (200, []) →
      s.runsGet r2.info.run_id = some (200, rd2) →
      s.metricsHistory r2.info.run_id = some (m2, ms2) →
      ((MTD.dump_all_traces s url now).metadata.total_experiments = 1
        ∧ (MTD.dump_all_traces s url now).metadata.total_runs = 2
        ∧ (MTD.dump_all_traces s url now).metadata.total_traces = 1)
      ∧ (MV.dump_all_traces s url now).metadata.total_traces = 2 := by
  intro s url now e r1 r2 a txt c1 c2 ts1 ts2 rd1 rd2 m1 m2 ms1 ms2
  intro hx hr ht1 hc1 ha1 hk hd hg1 hm1 ht2 hc2 ha2 hg2 hm2
  have hexps : get_all_experiments s = [e] := by
    simp only [get_all_experiments, hx]
    rw [if_neg (by decide : ¬ httpError 200)]
  have hruns : get_runs_for_experiment s e.experiment_id = [r1, r2] := by
    simp only [get_runs_for_experiment, hr]
    rw [if_neg (by decide : ¬ httpError 200)]
  have hw1 : MTD.entryTraceCount (MTD.runEntry s r1) = 1 := by
    obtain ⟨td, htd, htr⟩ :=
      MTD.traceDataMTD_success s r1.info.run_id rd1 m1 ms1 200 [a] hg1 hm1 ha1
    simp only [MTD.entryTraceCount, MTD.runEntry, htd, htr]
    rw [MTD.traces_single_artifact s r1.info.run_id c1 ts1 a txt ht1 hc1 ha1 hk hd]
    rfl
  have hw2 : MTD.entryTraceCount (MTD.runEntry s r2) = 0 := by
    obtain ⟨td, htd, htr⟩ :=
      MTD.traceDataMTD_success s r2.info.run_id rd2 m2 ms2 200 [] hg2 hm2 ha2
    simp only [MTD.entryTraceCount, MTD.runEntry, htd, htr]
    rw [MTD.traces_no_artifacts s r2.info.run_id c2 ts2 ht2 hc2 ha2]
    rfl
  have hv1 : MV.entryCount (MV.runEntry s r1) = 1 := by
    obtain ⟨td, htd⟩ := MV.traceDataMV_success s r1.info.run_id rd1 m1 ms1 200 [a] hg1 hm1 ha1
    simp [MV.entryCount, MV.runEntry, htd]
  have hv2 : MV.entryCount (MV.runEntry s r2) = 1 := by
    obtain ⟨td, htd⟩ := MV.traceDataMV_success s r2.info.run_id rd2 m2 ms2 200 [] hg2 hm2 ha2
    simp [MV.entryCount, MV.runEntry, htd]
  refine ⟨⟨?_, ?_, ?_⟩, ?_⟩
  · simp [MTD.dumpAllMTD_eq, hexps]
  · simp [MTD.dumpAllMTD_eq, hexps, MTD.expRuns, hruns]
  · simp only [MTD.dumpAllMTD_eq]
    rw [hexps]
    simp only [List.map_cons, List.map_nil, List.sum_cons, List.sum_nil]
    show (MTD.processRuns s (MTD.expRuns s e)).2 + 0 = 1
    rw [MTD.processRunsMTD_eq]
    show ((MTD.expRuns s e).map (fun r => MTD.entryTraceCount (MTD.runEntry s r))).sum + 0 = 1
    rw [show MTD.expRuns s e = [r1, r2] from hruns]
    simp [hw1, hw2]
  · simp only [MV.dumpAllMV_eq]
    rw [hexps]
    simp only [List.map_cons, List.map_nil, List.sum_cons, List.sum_nil]
    show (MV.processRuns s (MV.expRuns s e)).2 + 0 = 2
    rw [MV.processRunsMV_eq]
    show ((MV.expRuns s e).map (fun r => MV.entryCount (MV.runEntry s r))).sum + 0 = 2
    rw [show MV.expRuns s e = [r1, r2] from hruns]
    simp [hv1, hv2]

/-- Witness for C2 (amended) at the scenario server `cs2`. -/
theorem C2_end_to_end_scenario_w :
    ((MTD.dump_all_traces cs2 "u" "t").metadata.total_experiments = 1
      ∧ (MTD.dump_all_traces cs2 "u" "t").metadata.total_runs = 2
      ∧ (MTD.dump_all_traces cs2 "u" "t").metadata.total_traces = 1)
    ∧ (MV.dump_all_traces cs2 "u" "t").metadata.total_traces = 2 :=
  C2_end_to_end_scenario cs2 "u" "t" exp1 runA runB artTrace "null" 404 404 [] []
    runA runB 200 200 [] []
    rfl rfl rfl (by decide) rfl (by decide) rfl rfl rfl rfl (by decide) rfl rfl rfl

/-- Counterexample for C2 as stated: `cs2` is exactly the claimed server
state (one experiment, two runs, one keyword-matching artifact on the
first run which downloads successfully, a trace-search endpoint with no
traces, no matching tags or params), yet the `mlflow/` variant's
dump-all reports `total_traces = 2`, not `1`. -/
theorem C2_mv_reports_two :
    (MV.dump_all_traces cs2 "u" "t").metadata.total_experiments = 1
    ∧ (MV.dump_all_traces cs2 "u" "t").metadata.total_runs = 2
    ∧ (MV.dump_all_traces cs2 "u" "t").metadata.total_traces = 2 := by
  exact ⟨by decide, by decide, by decide⟩
